import Mathlib

/-!
Verification of the pooled relational client in `src/db/db.py` (class `DB`),
a thin wrapper around `psycopg2.pool.ThreadedConnectionPool`.

The wrapper's own code is embedded directly from `db.py`.  The behaviour of
the psycopg2 driver that the wrapper calls into (pool construction,
`getconn`, `putconn`, `closeall`, cursor execution, commit/rollback) is
modelled from psycopg2's documented pool semantics: every pool operation on
a closed pool raises `psycopg2.pool.PoolError` (including `closeall`
itself), `getconn` on an exhausted pool raises `PoolError` rather than
blocking, and the pool eagerly opens `minconn` connections at construction.
Statement execution and commit outcomes are oracles supplied per call
(`QueryBehavior`), since they depend on the remote database.
-/

/-- A value in a database result cell (abstract driver value). -/
inductive Val where
  | int : Int → Val
  | str : String → Val
  | null : Val
deriving DecidableEq

/-- An error object raised by the underlying database driver, carrying its
message. -/
structure DriverErr where
  msg : String
deriving DecidableEq

/-- The universe of Python exceptions relevant to the wrapper.  The embedded
code raises only `driver` (a psycopg2 error re-raised bare by the wrapper's
`raise`), `poolError` (psycopg2.pool.PoolError raised inside the pool), and
`attrError` (attribute access on None).  The last three constructors are the
error classes named by the specification's taxonomy (QueryExecutionError,
PoolClosedError, ConnectionPoolInitError); they exist in this type so that
statements of the form "the raised error is / is not one of these" are
expressible.  The source defines no such classes and never raises them. -/
inductive PyErr where
  | driver : DriverErr → PyErr
  | poolError : String → PyErr
  | attrError : String → PyErr
  | queryExecutionError : DriverErr → PyErr
  | poolClosedError : PyErr
  | connectionPoolInitError : DriverErr → PyErr
deriving DecidableEq

/-- Whether an exception is the spec-named QueryExecutionError class. -/
def PyErr.isQueryExecutionError : PyErr → Bool
  | .queryExecutionError _ => true
  | _ => false

/-- Whether an exception is the spec-named PoolClosedError class. -/
def PyErr.isPoolClosedError : PyErr → Bool
  | .poolClosedError => true
  | _ => false

/-- Whether an exception is the spec-named ConnectionPoolInitError class. -/
def PyErr.isConnectionPoolInitError : PyErr → Bool
  | .connectionPoolInitError _ => true
  | _ => false

/-- State of a `psycopg2.pool.ThreadedConnectionPool`, as far as the
wrapper's behaviour depends on it: the configured bounds, how many
connections sit idle in the pool, how many are checked out, and whether
`closeall` has been called. -/
structure Pool where
  minconn : Nat
  maxconn : Nat
  idle : Nat
  used : Nat
  closed : Bool
deriving DecidableEq

/-- psycopg2 `getconn` (sequential use, one key): raises PoolError if the
pool is closed; otherwise hands out an idle connection if one exists,
opens a fresh connection while under `maxconn`, and raises PoolError
"connection pool exhausted" at the cap (psycopg2 pools never block). -/
def Pool.getconn (p : Pool) : Except PyErr Pool :=
  if p.closed then .error (.poolError "connection pool is closed")
  else if 0 < p.idle then
    .ok { p with idle := p.idle - 1, used := p.used + 1 }
  else if p.used < p.maxconn then
    .ok { p with used := p.used + 1 }
  else .error (.poolError "connection pool exhausted")

/-- psycopg2 `putconn`: raises PoolError if the pool is closed; otherwise
returns the connection to the idle set while the idle set is below
`minconn`, and physically closes and discards it otherwise. -/
def Pool.putconn (p : Pool) : Except PyErr Pool :=
  if p.closed then .error (.poolError "connection pool is closed")
  else if p.idle < p.minconn then
    .ok { p with idle := p.idle + 1, used := p.used - 1 }
  else
    .ok { p with used := p.used - 1 }

/-- psycopg2 `closeall`: raises PoolError if the pool is already closed;
otherwise closes every connection and marks the pool closed. -/
def Pool.closeall (p : Pool) : Except PyErr Pool :=
  if p.closed then .error (.poolError "connection pool is closed")
  else .ok { p with idle := 0, used := 0, closed := true }

/-- psycopg2 `ThreadedConnectionPool(minconn, maxconn, ...)`: eagerly opens
`minconn` live connections.  `connectErr` is the environment's oracle for
whether connecting fails (unreachable host, bad credentials); on failure
the constructor raises the driver error and no pool value exists. -/
def mkThreadedConnectionPool (minconn maxconn : Nat)
    (connectErr : Option DriverErr) : Except PyErr Pool :=
  match connectErr with
  | some e => .error (.driver e)
  | none =>
    .ok { minconn := minconn, maxconn := maxconn, idle := minconn,
          used := 0, closed := false }

/-- The caller-supplied configuration dictionary `db_config`.  `minconn`
and `maxconn` are `Option` because the dictionary may omit them; `db.py`
reads them with `self.db_config.get("minconn", 1)` and
`self.db_config.get("maxconn", 10)`. -/
structure Config where
  dbname : String
  user : String
  password : String
  host : String
  port : String
  minconn : Option Nat
  maxconn : Option Nat
deriving DecidableEq

/-- Outcome of a successful `cursor.execute`: the cursor's `description`
(result-column names, `none` for statements producing no result set) and
the raw rows `fetchall` would return. -/
structure ExecOk where
  description : Option (List String)
  rows : List (List Val)

/-- The per-call oracle for driver behaviour: whether `cursor.execute`
fails or succeeds (and with what result set), and whether `conn.commit`
fails. -/
structure QueryBehavior where
  exec : Except DriverErr ExecOk
  commitErr : Option DriverErr

/-- Python truthiness of `cursor.description` as tested by
`if cursor.description:` in `execute_query`. -/
def descTruthy : Option (List String) → Bool
  | some (_ :: _) => true
  | _ => false

/-- RealDictCursor `fetchall`: each raw row becomes a mapping from the
description's column names to the row's values. -/
def realDictRows (cols : List String) (rows : List (List Val)) :
    List (List (String × Val)) :=
  rows.map (fun row => cols.zip row)

/-- Observable events of one wrapper call, in chronological order:
successful connection acquisition, statement submission, commit attempt,
rollback, cursor close, connection return. -/
inductive Ev where
  | getconn
  | execute
  | commit
  | rollback
  | closeCursor
  | putconn
deriving DecidableEq

/-- Result of one wrapper call: the value returned or exception raised,
the pool state after the call, and the chronological event trace. -/
structure CallOutcome (α : Type) where
  result : Except PyErr α
  pool : Pool
  trace : List Ev

/-- Embedding of `DB.execute_query` from `db.py`:

    results = []
    with self._get_connection() as conn:          -- getconn / finally putconn
        with self._get_cursor(conn) as cursor:    -- cursor  / finally close
            try:
                cursor.execute(query, params)
                if cursor.description:
                    results = cursor.fetchall()
            except Exception as e:
                conn.rollback()
                raise
            else:
                conn.commit()
    return results

A failure of `cursor.execute` triggers rollback and a bare re-raise of the
driver error; `conn.commit` sits in the `else` clause, outside the
handler, so a commit failure propagates without rollback.  On every path
the cursor's `finally` closes the cursor and the connection's `finally`
returns the connection. -/
def execute_query (p : Pool) (b : QueryBehavior) :
    CallOutcome (List (List (String × Val))) :=
  match p.getconn with
  | .error e => { result := .error e, pool := p, trace := [] }
  | .ok p1 =>
    match b.exec with
    | .error e =>
      match p1.putconn with
      | .error e2 =>
        { result := .error e2, pool := p1,
          trace := [.getconn, .execute, .rollback, .closeCursor] }
      | .ok p2 =>
        { result := .error (.driver e), pool := p2,
          trace := [.getconn, .execute, .rollback, .closeCursor, .putconn] }
    | .ok r =>
      match b.commitErr with
      | some e =>
        match p1.putconn with
        | .error e2 =>
          { result := .error e2, pool := p1,
            trace := [.getconn, .execute, .commit, .closeCursor] }
        | .ok p2 =>
          { result := .error (.driver e), pool := p2,
            trace := [.getconn, .execute, .commit, .closeCursor, .putconn] }
      | none =>
        let results :=
          if descTruthy r.description then
            realDictRows (r.description.getD []) r.rows
          else []
        match p1.putconn with
        | .error e2 =>
          { result := .error e2, pool := p1,
            trace := [.getconn, .execute, .commit, .closeCursor] }
        | .ok p2 =>
          { result := .ok results, pool := p2,
            trace := [.getconn, .execute, .commit, .closeCursor, .putconn] }

/-- Embedding of `DB.execute_non_query` from `db.py`:

    with self._get_connection() as conn:
        with self._get_cursor(conn) as cursor:
            try:
                cursor.execute(query, params)
                conn.commit()
            except Exception as e:
                conn.rollback()
                raise

Unlike `execute_query`, `conn.commit()` is inside the `try`, so a failing
commit also triggers the rollback branch before the bare re-raise. -/
def execute_non_query (p : Pool) (b : QueryBehavior) : CallOutcome Unit :=
  match p.getconn with
  | .error e => { result := .error e, pool := p, trace := [] }
  | .ok p1 =>
    match b.exec with
    | .error e =>
      match p1.putconn with
      | .error e2 =>
        { result := .error e2, pool := p1,
          trace := [.getconn, .execute, .rollback, .closeCursor] }
      | .ok p2 =>
        { result := .error (.driver e), pool := p2,
          trace := [.getconn, .execute, .rollback, .closeCursor, .putconn] }
    | .ok _ =>
      match b.commitErr with
      | some e =>
        match p1.putconn with
        | .error e2 =>
          { result := .error e2, pool := p1,
            trace := [.getconn, .execute, .commit, .rollback, .closeCursor] }
        | .ok p2 =>
          { result := .error (.driver e), pool := p2,
            trace := [.getconn, .execute, .commit, .rollback, .closeCursor,
                      .putconn] }
      | none =>
        match p1.putconn with
        | .error e2 =>
          { result := .error e2, pool := p1,
            trace := [.getconn, .execute, .commit, .closeCursor] }
        | .ok p2 =>
          { result := .ok (), pool := p2,
            trace := [.getconn, .execute, .commit, .closeCursor, .putconn] }

/-- The attribute state of a `DB` instance: the stored configuration and
the `_pool` attribute (`none` embeds Python's `None`). -/
structure DBState where
  db_config : Config
  pool : Option Pool
deriving DecidableEq

/-- Embedding of `DB.__init__`: stores `db_config`, sets `self._pool =
None`, then runs the pool setup, which constructs the ThreadedConnectionPool
with `get("minconn", 1)` / `get("maxconn", 10)` inside `try`, and on any
exception logs and bare-`raise`s it.  On failure the escaping exception is
paired with the instance's attribute state, in which `_pool` is still
`None`. -/
def DB.init (c : Config) (connectErr : Option DriverErr) :
    Except (PyErr × DBState) DBState :=
  match mkThreadedConnectionPool (c.minconn.getD 1) (c.maxconn.getD 10)
      connectErr with
  | .error e => .error (e, { db_config := c, pool := none })
  | .ok p => .ok { db_config := c, pool := some p }

/-- Embedding of `DB.close`:

    if self._pool:
        self._pool.closeall()

A pool object is always truthy, so whenever `_pool` is not `None` the call
reaches `closeall`, which raises PoolError if the pool is already closed.
`_pool` is never set back to `None`. -/
def DBState.close (s : DBState) : Except PyErr DBState :=
  match s.pool with
  | none => .ok s
  | some p =>
    match p.closeall with
    | .error e => .error e
    | .ok p2 => .ok { s with pool := some p2 }

/-- A heap of pool objects addressed by reference, modelling Python object
identity for the `_pool` attribute: the `DB` object stores a reference and
mutates the pool in place through it. -/
def Heap : Type := Nat → Pool

/-- The attribute slots of a `DB` object at reference level: the
configuration and the reference held in `_pool`. -/
structure DBObj where
  db_config : Config
  pool_ref : Option Nat
deriving DecidableEq

/-- Reference-level embedding of `DB.execute_query`: the method reads
`self._pool` through the stored reference and mutates the referenced pool
in place; its body contains no assignment to any attribute of `self`, so
the object's own slots are returned unchanged.  When `_pool` is `None`,
`self._pool.getconn()` raises AttributeError. -/
def DBObj.executeQuery (s : DBObj) (h : Heap) (b : QueryBehavior) :
    DBObj × Heap × Except PyErr (List (List (String × Val))) :=
  match s.pool_ref with
  | none =>
    (s, h, .error (.attrError "NoneType object has no attribute getconn"))
  | some r =>
    let c := execute_query (h r) b
    (s, fun n => if n = r then c.pool else h n, c.result)

/-- Reference-level embedding of `DB.execute_non_query`; like
`DBObj.executeQuery`, the method never assigns to an attribute of
`self`. -/
def DBObj.executeNonQuery (s : DBObj) (h : Heap) (b : QueryBehavior) :
    DBObj × Heap × Except PyErr Unit :=
  match s.pool_ref with
  | none =>
    (s, h, .error (.attrError "NoneType object has no attribute getconn"))
  | some r =>
    let c := execute_non_query (h r) b
    (s, fun n => if n = r then c.pool else h n, c.result)

/-- Run one Execute call (query when the flag is true, non-query
otherwise), keeping the pool state and the event trace. -/
def runCall (p : Pool) (c : Bool × QueryBehavior) : Pool × List Ev :=
  if c.1 then ((execute_query p c.2).pool, (execute_query p c.2).trace)
  else ((execute_non_query p c.2).pool, (execute_non_query p c.2).trace)

/-- Run a sequence of Execute calls, collecting each call's trace. -/
def runCalls (p : Pool) : List (Bool × QueryBehavior) → Pool × List (List Ev)
  | [] => (p, [])
  | c :: cs =>
    let r := runCall p c
    let rest := runCalls r.1 cs
    (rest.1, r.2 :: rest.2)

/-- A freshly constructed pool of minimum and maximum size 1, as produced
by `ThreadedConnectionPool(1, 1, ...)`. -/
def pool1 : Pool :=
  { minconn := 1, maxconn := 1, idle := 1, used := 0, closed := false }

/-- The pool of `pool1` after `closeall`. -/
def closedPool : Pool :=
  { minconn := 1, maxconn := 1, idle := 0, used := 0, closed := true }

/-- A concrete configuration dictionary supplying every key. -/
def cfg1 : Config :=
  { dbname := "chinook", user := "postgres", password := "postgres",
    host := "localhost", port := "5432", minconn := some 1,
    maxconn := some 1 }

/-- Behaviour of a successful `SELECT 1 AS x`: one result column `x`, one
row, commit succeeds. -/
def okBehavior : QueryBehavior :=
  { exec := .ok { description := some ["x"], rows := [[Val.int 1]] },
    commitErr := none }

/-- Behaviour of a malformed statement: `cursor.execute` raises a driver
error. -/
def failBehavior : QueryBehavior :=
  { exec := .error { msg := "syntax error at or near SELEC" },
    commitErr := none }

/-- Behaviour where the statement succeeds but `conn.commit` fails. -/
def commitFailBehavior : QueryBehavior :=
  { exec := .ok { description := some ["x"], rows := [[Val.int 1]] },
    commitErr := some { msg := "could not commit: disk full" } }

/-- A `DB` instance whose pool is open. -/
def dbReady : DBState := { db_config := cfg1, pool := some pool1 }

/-- A `DB` instance whose pool has been closed by `close`. -/
def dbClosed : DBState := { db_config := cfg1, pool := some closedPool }

/-- On an open pool that is not exhausted, `getconn` succeeds and the
handed-back pool is still open. -/
theorem Pool.getconn_open (p : Pool) (hopen : p.closed = false)
    (hacq : 0 < p.idle ∨ p.used < p.maxconn) :
    ∃ p1, p.getconn = .ok p1 ∧ p1.closed = false := by
  by_cases hi : 0 < p.idle
  · refine ⟨{ p with idle := p.idle - 1, used := p.used + 1 }, ?_, hopen⟩
    simp [Pool.getconn, hopen, hi]
  · rcases hacq with h | h
    · exact absurd h hi
    · refine ⟨{ p with used := p.used + 1 }, ?_, hopen⟩
      simp [Pool.getconn, hopen, hi, h]

/-- On an open pool, `putconn` succeeds. -/
theorem Pool.putconn_open (p : Pool) (hopen : p.closed = false) :
    ∃ p2, p.putconn = .ok p2 := by
  unfold Pool.putconn
  by_cases hi : p.idle < p.minconn <;> simp [hopen, hi]

/-- C1 counterexample: on a failing statement, the error that reaches the
caller is the original driver error re-raised bare, not a
QueryExecutionError wrapper — the source defines no QueryExecutionError
class. -/
theorem C1_counterexample :
    (execute_query pool1 failBehavior).result
        = .error (.driver { msg := "syntax error at or near SELEC" })
    ∧ (PyErr.driver { msg := "syntax error at or near SELEC"
        }).isQueryExecutionError = false :=
  ⟨rfl, rfl⟩

/-- C1 (amended): for every `execute_query` or `execute_non_query` call on
an open, non-exhausted pool in which the submitted statement fails, the
transaction is rolled back before the error propagates, and the call
re-raises the underlying driver error itself, unchanged — never silently
swallowed, never discarded (there is no QueryExecutionError wrapper). -/
theorem C1_rollback_and_reraise (p : Pool) (b : QueryBehavior)
    (e : DriverErr) (hopen : p.closed = false)
    (hacq : 0 < p.idle ∨ p.used < p.maxconn)
    (hfail : b.exec = .error e) :
    ((execute_query p b).result = .error (.driver e)
      ∧ Ev.rollback ∈ (execute_query p b).trace)
    ∧ ((execute_non_query p b).result = .error (.driver e)
      ∧ Ev.rollback ∈ (execute_non_query p b).trace) := by
  obtain ⟨p1, hg, hp1⟩ := Pool.getconn_open p hopen hacq
  obtain ⟨p2, hput⟩ := Pool.putconn_open p1 hp1
  refine ⟨⟨?_, ?_⟩, ⟨?_, ?_⟩⟩ <;>
    simp [execute_query, execute_non_query, hg, hfail, hput]

/-- C1 witness: the amended theorem applied to the concrete size-1 pool and
a failing statement. -/
theorem C1_witness :
    Ev.rollback ∈ (execute_query pool1 failBehavior).trace :=
  (C1_rollback_and_reraise pool1 failBehavior
    { msg := "syntax error at or near SELEC" } rfl (Or.inl (by decide))
    rfl).1.2

/-- C2 counterexample: after `close`, an Execute call raises psycopg2's
PoolError (from the attempted `getconn` on the dead pool), which is not the
spec-named PoolClosedError — the source defines no PoolClosedError
class. -/
theorem C2_counterexample :
    (execute_query closedPool okBehavior).result
        = .error (.poolError "connection pool is closed")
    ∧ (PyErr.poolError "connection pool is closed").isPoolClosedError
        = false :=
  ⟨rfl, rfl⟩

/-- C2 (amended): on a closed pool, every `execute_query` or
`execute_non_query` call fails fast — the wrapper does attempt to acquire
from the dead pool, and that acquisition immediately raises psycopg2's
PoolError "connection pool is closed" (not a wrapper-defined
PoolClosedError); no connection is handed out, nothing is executed, and the
pool state is unchanged. -/
theorem C2_fail_fast (p : Pool) (b : QueryBehavior)
    (hclosed : p.closed = true) :
    ((execute_query p b).result
        = .error (.poolError "connection pool is closed")
      ∧ (execute_query p b).trace = []
      ∧ (execute_query p b).pool = p)
    ∧ ((execute_non_query p b).result
        = .error (.poolError "connection pool is closed")
      ∧ (execute_non_query p b).trace = []
      ∧ (execute_non_query p b).pool = p) := by
  have hg : p.getconn = .error (.poolError "connection pool is closed") := by
    simp [Pool.getconn, hclosed]
  refine ⟨⟨?_, ?_, ?_⟩, ⟨?_, ?_, ?_⟩⟩ <;>
    simp [execute_query, execute_non_query, hg]

/-- C2 witness: the amended theorem applied to the concrete closed pool. -/
theorem C2_witness :
    (execute_non_query closedPool okBehavior).result
        = .error (.poolError "connection pool is closed") :=
  (C2_fail_fast closedPool okBehavior rfl).2.1

/-- On an open, non-exhausted pool, one Execute call (of either kind) emits
exactly one connection acquisition, one cursor close and one connection
return. -/
theorem runCall_counts (p : Pool) (b : QueryBehavior) (isQ : Bool)
    (hopen : p.closed = false) (hacq : 0 < p.idle ∨ p.used < p.maxconn) :
    (runCall p (isQ, b)).2.count Ev.getconn = 1
    ∧ (runCall p (isQ, b)).2.count Ev.putconn = 1
    ∧ (runCall p (isQ, b)).2.count Ev.closeCursor = 1 := by
  obtain ⟨p1, hg, hp1⟩ := Pool.getconn_open p hopen hacq
  obtain ⟨p2, hput⟩ := Pool.putconn_open p1 hp1
  cases isQ <;> rcases hb : b.exec with e | r <;>
    rcases hc : b.commitErr with _ | e2 <;>
    refine ⟨?_, ?_, ?_⟩ <;>
    simp [runCall, execute_query, execute_non_query, hg, hb, hc, hput,
      List.count_cons]

/-- A call on the fresh size-1 pool restores the pool exactly. -/
theorem runCall_pool1 (c : Bool × QueryBehavior) :
    (runCall pool1 c).1 = pool1 := by
  obtain ⟨isQ, b⟩ := c
  have hg : pool1.getconn
      = .ok { minconn := 1, maxconn := 1, idle := 0, used := 1,
              closed := false } := by
    simp [pool1, Pool.getconn]
  have hput : Pool.putconn
      { minconn := 1, maxconn := 1, idle := 0, used := 1, closed := false }
      = .ok pool1 := by
    simp [pool1, Pool.putconn]
  cases isQ <;> rcases hb : b.exec with e | r <;>
    rcases hc : b.commitErr with _ | e2 <;>
    simp [runCall, execute_query, execute_non_query, hg, hb, hc, hput]

/-- C3 (confirmed): on an open, non-exhausted pool, every `execute_query` or
`execute_non_query` call acquires a connection once, closes the cursor
exactly once and returns the connection to the pool exactly once, on
success and failure alike; consequently any number of sequential Execute
calls against the fresh pool of maximum size 1 leave the pool exactly as
constructed and each call in the sequence acquires its connection (never
blocks or fails on acquisition) and releases cursor and connection exactly
once. -/
theorem C3_leak_free (p : Pool) (b : QueryBehavior) (isQ : Bool)
    (hopen : p.closed = false) (hacq : 0 < p.idle ∨ p.used < p.maxconn)
    (cs : List (Bool × QueryBehavior)) :
    ((runCall p (isQ, b)).2.count Ev.getconn = 1
      ∧ (runCall p (isQ, b)).2.count Ev.putconn = 1
      ∧ (runCall p (isQ, b)).2.count Ev.closeCursor = 1)
    ∧ ((runCalls pool1 cs).1 = pool1
      ∧ ∀ t ∈ (runCalls pool1 cs).2,
          t.count Ev.getconn = 1 ∧ t.count Ev.putconn = 1
            ∧ t.count Ev.closeCursor = 1) := by
  refine ⟨runCall_counts p b isQ hopen hacq, ?_⟩
  induction cs with
  | nil => exact ⟨rfl, by intro t ht; cases ht⟩
  | cons c cs ih =>
    obtain ⟨ih1, ih2⟩ := ih
    have hrestore : (runCall pool1 c).1 = pool1 := runCall_pool1 c
    constructor
    · show (runCalls (runCall pool1 c).1 cs).1 = pool1
      rw [hrestore]; exact ih1
    · intro t ht
      have ht2 : t ∈ (runCall pool1 c).2
          :: (runCalls (runCall pool1 c).1 cs).2 := ht
      rcases List.mem_cons.mp ht2 with h | h
      · subst h
        exact runCall_counts pool1 c.2 c.1 rfl (Or.inl (by decide))
      · rw [hrestore] at h
        exact ih2 t h

/-- C3 witness: the theorem applied to the fresh size-1 pool, one concrete
call and a concrete two-call sequence. -/
theorem C3_witness :
    (runCall pool1 (true, okBehavior)).2.count Ev.putconn = 1
    ∧ (runCalls pool1 [(true, okBehavior), (false, okBehavior)]).1
        = pool1 :=
  ⟨(C3_leak_free pool1 okBehavior true rfl (Or.inl (by decide)) []).1.2.1,
   (C3_leak_free pool1 okBehavior true rfl (Or.inl (by decide))
     [(true, okBehavior), (false, okBehavior)]).2.1⟩

/-- C4 counterexample: a first `close` on a ready client succeeds, but a
second `close` raises psycopg2's PoolError — `close` never resets `_pool`
to None, so the second call reaches `closeall` on an already-closed pool,
which raises.  Closing an already-closed pool is therefore an error, not a
no-op. -/
theorem C4_counterexample :
    dbReady.close = .ok dbClosed
    ∧ dbClosed.close = .error (.poolError "connection pool is closed") :=
  ⟨rfl, rfl⟩

/-- C4 (amended): `close` is a no-op only when the client holds no pool
object (`_pool` is None, which never results from a previous `close`);
calling `close` on a client whose pool is already closed raises psycopg2's
PoolError, so `close` is not idempotent. -/
theorem C4_close_second_raises (s : DBState) :
    (s.pool = none → s.close = .ok s)
    ∧ (∀ p, s.pool = some p → p.closed = true →
        s.close = .error (.poolError "connection pool is closed")) := by
  constructor
  · intro h
    simp [DBState.close, h]
  · intro p hp hc
    simp [DBState.close, hp, Pool.closeall, hc]

/-- C4 witness: the amended theorem applied to a client that was never
given a pool and to the concrete closed client. -/
theorem C4_witness :
    ({ db_config := cfg1, pool := none } : DBState).close
        = .ok { db_config := cfg1, pool := none }
    ∧ dbClosed.close = Except.error (.poolError "connection pool is closed") :=
  ⟨(C4_close_second_raises { db_config := cfg1, pool := none }).1 rfl,
   (C4_close_second_raises dbClosed).2 closedPool rfl rfl⟩

/-- C5 (confirmed): a successful `execute_query` on an open, non-exhausted
pool returns exactly the materialized result set: when the cursor has a
(nonempty) description, the ordered list of row mappings built from the
description's column names — its length is the number of rows fetched and
each mapping's keys are exactly the result columns; when the statement
produced no result set (or no rows), the empty list.  In every successful
case the transaction is committed. -/
theorem C5_query_results (p : Pool) (b : QueryBehavior)
    (desc : Option (List String)) (rows : List (List Val))
    (hopen : p.closed = false) (hacq : 0 < p.idle ∨ p.used < p.maxconn)
    (hexec : b.exec = .ok { description := desc, rows := rows })
    (hcommit : b.commitErr = none)
    (hw : ∀ row ∈ rows, row.length = (desc.getD []).length) :
    (execute_query p b).result
        = .ok (if descTruthy desc then realDictRows (desc.getD []) rows
               else [])
    ∧ Ev.commit ∈ (execute_query p b).trace
    ∧ (if descTruthy desc then realDictRows (desc.getD []) rows
       else []).length = (if descTruthy desc then rows.length else 0)
    ∧ ∀ m ∈ (if descTruthy desc then realDictRows (desc.getD []) rows
             else []), m.map Prod.fst = desc.getD [] := by
  obtain ⟨p1, hg, hp1⟩ := Pool.getconn_open p hopen hacq
  obtain ⟨p2, hput⟩ := Pool.putconn_open p1 hp1
  refine ⟨?_, ?_, ?_, ?_⟩
  · simp [execute_query, hg, hexec, hcommit, hput]
  · simp [execute_query, hg, hexec, hcommit, hput]
  · by_cases hd : descTruthy desc = true <;>
      simp [hd, realDictRows]
  · by_cases hd : descTruthy desc = true
    · simp only [hd, if_pos, realDictRows]
      intro m hm
      obtain ⟨row, hrow, hzip⟩ := List.mem_map.mp hm
      subst hzip
      exact List.map_fst_zip (desc.getD []) row (le_of_eq (hw row hrow).symm)
    · simp [hd]

/-- C5 witness: the theorem applied to the fresh size-1 pool and the
behaviour of a successful `SELECT 1 AS x`. -/
theorem C5_witness :
    (execute_query pool1 okBehavior).result = .ok [[("x", Val.int 1)]] :=
  (C5_query_results pool1 okBehavior (some ["x"]) [[Val.int 1]] rfl
    (Or.inl (by decide)) rfl rfl (by decide)).1

/-- C6 counterexample: when the driver cannot establish the pool's
connections, construction re-raises the driver's own error, which is not
the spec-named ConnectionPoolInitError — the source defines no
ConnectionPoolInitError class (the `except` clause logs and bare-`raise`s).
No partial pool is left: the instance's `_pool` is still None. -/
theorem C6_counterexample :
    DB.init cfg1 (some { msg := "could not connect to server" })
        = .error (.driver { msg := "could not connect to server" },
                  { db_config := cfg1, pool := none })
    ∧ (PyErr.driver { msg := "could not connect to server"
        }).isConnectionPoolInitError = false :=
  ⟨rfl, rfl⟩

/-- C6 (amended): if the underlying database is unreachable or credentials
are rejected, construction raises — re-raising the underlying driver error
itself rather than a ConnectionPoolInitError — and never partially
succeeds: on failure the escaping instance state holds no pool (`_pool` is
None), and on success the pool is fully usable (present, open, with its
`minconn` connections established). -/
theorem C6_init_all_or_nothing (c : Config) (e : DriverErr) :
    (DB.init c (some e)
        = .error (.driver e, { db_config := c, pool := none }))
    ∧ ∃ p, DB.init c none = .ok { db_config := c, pool := some p }
        ∧ p.closed = false ∧ p.idle = c.minconn.getD 1 := by
  refine ⟨rfl, ?_⟩
  exact ⟨_, rfl, rfl, rfl⟩

/-- C7 (confirmed): for every configuration, successful construction
eagerly establishes exactly `minconn` live connections (all idle, none
checked out), with `minconn` defaulting to 1 and `maxconn` defaulting to 10
when the configuration omits them. -/
theorem C7_eager_minconn (c : Config) :
    DB.init c none
      = .ok { db_config := c,
              pool := some { minconn := c.minconn.getD 1,
                             maxconn := c.maxconn.getD 10,
                             idle := c.minconn.getD 1, used := 0,
                             closed := false } }
    ∧ (c.minconn = none → c.minconn.getD 1 = 1)
    ∧ (c.maxconn = none → c.maxconn.getD 10 = 10) := by
  refine ⟨rfl, ?_, ?_⟩ <;> intro h <;> simp [h]

/-- A configuration dictionary that omits `minconn` and `maxconn`. -/
def cfgDefaults : Config :=
  { dbname := "chinook", user := "postgres", password := "postgres",
    host := "localhost", port := "5432", minconn := none,
    maxconn := none }

/-- C7 witness: the theorem applied to a configuration omitting both pool
bounds — the pool comes up with 1 idle connection and a maximum of 10. -/
theorem C7_witness :
    DB.init cfgDefaults none
      = .ok { db_config := cfgDefaults,
              pool := some { minconn := 1, maxconn := 10, idle := 1,
                             used := 0, closed := false } } :=
  (C7_eager_minconn cfgDefaults).1

/-- The event trace of an `execute_query` call is one of finitely many
shapes, one per exit path of the method. -/
theorem execute_query_trace_cases (p : Pool) (b : QueryBehavior) :
    (execute_query p b).trace = []
    ∨ (execute_query p b).trace
        = [.getconn, .execute, .rollback, .closeCursor]
    ∨ (execute_query p b).trace
        = [.getconn, .execute, .rollback, .closeCursor, .putconn]
    ∨ (execute_query p b).trace
        = [.getconn, .execute, .commit, .closeCursor]
    ∨ (execute_query p b).trace
        = [.getconn, .execute, .commit, .closeCursor, .putconn] := by
  rcases hg : p.getconn with e | p1
  · simp [execute_query, hg]
  · rcases hb : b.exec with e | r
    · rcases hput : p1.putconn with e2 | p2 <;>
        simp [execute_query, hg, hb, hput]
    · rcases hc : b.commitErr with _ | e2 <;>
        rcases hput : p1.putconn with e2 | p2 <;>
        simp [execute_query, hg, hb, hc, hput]

/-- The event trace of an `execute_non_query` call is one of finitely many
shapes, one per exit path of the method. -/
theorem execute_non_query_trace_cases (p : Pool) (b : QueryBehavior) :
    (execute_non_query p b).trace = []
    ∨ (execute_non_query p b).trace
        = [.getconn, .execute, .rollback, .closeCursor]
    ∨ (execute_non_query p b).trace
        = [.getconn, .execute, .rollback, .closeCursor, .putconn]
    ∨ (execute_non_query p b).trace
        = [.getconn, .execute, .commit, .rollback, .closeCursor]
    ∨ (execute_non_query p b).trace
        = [.getconn, .execute, .commit, .rollback, .closeCursor, .putconn]
    ∨ (execute_non_query p b).trace
        = [.getconn, .execute, .commit, .closeCursor]
    ∨ (execute_non_query p b).trace
        = [.getconn, .execute, .commit, .closeCursor, .putconn] := by
  rcases hg : p.getconn with e | p1
  · simp [execute_non_query, hg]
  · rcases hb : b.exec with e | r
    · rcases hput : p1.putconn with e2 | p2 <;>
        simp [execute_non_query, hg, hb, hput]
    · rcases hc : b.commitErr with _ | e2 <;>
        rcases hput : p1.putconn with e2 | p2 <;>
        simp [execute_non_query, hg, hb, hc, hput]

/-- C8 (confirmed): whenever a call returns its connection to the pool, the
cursor was closed strictly before — the cursor `with`-block is nested
inside the connection `with`-block, so their release order is fixed on
success and on failure alike, in both `execute_query` and
`execute_non_query`. -/
theorem C8_cursor_closed_before_putconn (p : Pool) (b : QueryBehavior) :
    (Ev.putconn ∈ (execute_query p b).trace →
      (execute_query p b).trace.indexOf Ev.closeCursor
        < (execute_query p b).trace.indexOf Ev.putconn)
    ∧ (Ev.putconn ∈ (execute_non_query p b).trace →
      (execute_non_query p b).trace.indexOf Ev.closeCursor
        < (execute_non_query p b).trace.indexOf Ev.putconn) := by
  constructor
  · rcases execute_query_trace_cases p b with h | h | h | h | h <;>
      rw [h] <;> intro hm <;> revert hm <;> decide
  · rcases execute_non_query_trace_cases p b with
      h | h | h | h | h | h | h <;>
      rw [h] <;> intro hm <;> revert hm <;> decide

/-- C8 witness: the theorem applied to a concrete successful call, where
the connection is returned and the cursor closes first. -/
theorem C8_witness :
    Ev.putconn ∈ (execute_query pool1 okBehavior).trace
    ∧ (execute_query pool1 okBehavior).trace.indexOf Ev.closeCursor
        < (execute_query pool1 okBehavior).trace.indexOf Ev.putconn :=
  ⟨by decide,
   (C8_cursor_closed_before_putconn pool1 okBehavior).1 (by decide)⟩

/-- C9 (confirmed): when the statement succeeds but the commit fails on an
open, non-exhausted pool, `execute_query` propagates the commit error with
no rollback attempted (its `conn.commit()` sits in the `else` clause,
outside the exception handler), whereas `execute_non_query` rolls back
before re-raising (its `conn.commit()` sits inside the `try`); in both
methods the cursor is still closed and the connection still returned. -/
theorem C9_commit_outside_handler (p : Pool) (b : QueryBehavior)
    (e : DriverErr) (r : ExecOk) (hopen : p.closed = false)
    (hacq : 0 < p.idle ∨ p.used < p.maxconn)
    (hexec : b.exec = .ok r) (hcommit : b.commitErr = some e) :
    ((execute_query p b).result = .error (.driver e)
      ∧ Ev.rollback ∉ (execute_query p b).trace
      ∧ Ev.closeCursor ∈ (execute_query p b).trace
      ∧ Ev.putconn ∈ (execute_query p b).trace)
    ∧ ((execute_non_query p b).result = .error (.driver e)
      ∧ Ev.rollback ∈ (execute_non_query p b).trace
      ∧ Ev.closeCursor ∈ (execute_non_query p b).trace
      ∧ Ev.putconn ∈ (execute_non_query p b).trace) := by
  obtain ⟨p1, hg, hp1⟩ := Pool.getconn_open p hopen hacq
  obtain ⟨p2, hput⟩ := Pool.putconn_open p1 hp1
  refine ⟨⟨?_, ?_, ?_, ?_⟩, ⟨?_, ?_, ?_, ?_⟩⟩ <;>
    simp [execute_query, execute_non_query, hg, hexec, hcommit, hput]

/-- C9 witness: the theorem applied to the fresh size-1 pool and a
behaviour whose statement succeeds but whose commit fails. -/
theorem C9_witness :
    Ev.rollback ∉ (execute_query pool1 commitFailBehavior).trace
    ∧ Ev.rollback ∈ (execute_non_query pool1 commitFailBehavior).trace :=
  ⟨(C9_commit_outside_handler pool1 commitFailBehavior
      { msg := "could not commit: disk full" }
      { description := some ["x"], rows := [[Val.int 1]] } rfl
      (Or.inl (by decide)) rfl rfl).1.2.1,
   (C9_commit_outside_handler pool1 commitFailBehavior
      { msg := "could not commit: disk full" }
      { description := some ["x"], rows := [[Val.int 1]] } rfl
      (Or.inl (by decide)) rfl rfl).2.2.1⟩

/-- C10 (confirmed): neither `execute_query` nor `execute_non_query`
mutates the client's own attributes — whether the call succeeds or raises,
the returned object state is identical to the one before the call: the
stored configuration and the `_pool` reference are the very same. -/
theorem C10_no_self_mutation (s : DBObj) (h : Heap) (b : QueryBehavior) :
    (s.executeQuery h b).1 = s
    ∧ (s.executeQuery h b).1.db_config = s.db_config
    ∧ (s.executeQuery h b).1.pool_ref = s.pool_ref
    ∧ (s.executeNonQuery h b).1 = s
    ∧ (s.executeNonQuery h b).1.db_config = s.db_config
    ∧ (s.executeNonQuery h b).1.pool_ref = s.pool_ref := by
  refine ⟨?_, ?_, ?_, ?_, ?_, ?_⟩ <;>
    rcases hs : s.pool_ref with _ | r <;>
    simp [DBObj.executeQuery, DBObj.executeNonQuery, hs]
